import Mathlib

/-!
Verification of the BlueNet peer-lifecycle accounting subsystem.

This file gives a shallow embedding of the lifecycle/gateway core of the
repository (the WireGuard gateway client, the interface capacity selector,
the purchase orchestrator's service creation, the interface/router peer
counters and the four accounting jobs) and proves or refutes the stated
properties of that code.  Every definition is translated from the named
source location; definitions whose doc comment carries a `spec` marker
instead transcribe the specification's words, for comparison with the
code-derived definition.
-/

namespace BlueNet

/-- Python `c in s` for a single character `c`: membership of the
character in the string. -/
def pyContainsChar (h : String) (c : Char) : Bool :=
  h.data.contains c

/-- Python `str.lower()` (ASCII case folding suffices for the values the
code compares against). -/
def pyLower (h : String) : String :=
  String.mk (h.data.map Char.toLower)

/-- Python `str.isdigit()` restricted to ASCII digits: nonempty and all
characters are digits. -/
def pyIsDigit (h : String) : Bool :=
  !h.data.isEmpty && h.data.all Char.isDigit

/-- Decimal value of a list of ASCII digit characters, as computed by
Python `int(...)` on a digit string. -/
def digitsToNat (cs : List Char) : Nat :=
  cs.foldl (fun n c => n * 10 + (c.toNat - 48)) 0

/-- Python `int(h)` on a string that passed `str.isdigit()`. -/
def pyIntOfDigits (h : String) : Nat :=
  digitsToNat h.data

end BlueNet

namespace BlueNet

/-- Service lifecycle status, from `ServiceStatus` in
`infrastructure/database/models/services.py` lines 21-26. -/
inductive ServiceStatus
  | UNUSED
  | INACTIVE
  | ACTIVE
  | EXPIRED
  | DELETED
deriving DecidableEq, Repr

/-- The fields of a `Service` row that the accounting jobs read or write,
from `infrastructure/database/models/services.py`.  Timestamps are modelled
as integers; `none` models SQL NULL. -/
structure Service where
  status : ServiceStatus
  peerId : Option Nat
  purchaseDate : Option Int
  activationDate : Option Int
  expiryDate : Option Int
  deletionDate : Option Int
  lastHandshake : Option String
  downloadBytes : Nat
  uploadBytes : Nat
  totalBytes : Nat
deriving DecidableEq, Repr

/-- The `Service` row built by `PurchaseService.process_purchase`
(`infrastructure/services/purchase.py` lines 94-104): the status field is
`ServiceStatus.INACTIVE`, the purchase timestamp is set, and no peer, no
activation/expiry/deletion dates and no usage exist yet. -/
def process_purchase_service (purchaseDate : Int) : Service :=
  { status := ServiceStatus.INACTIVE
    peerId := none
    purchaseDate := some purchaseDate
    activationDate := none
    expiryDate := none
    deletionDate := none
    lastHandshake := none
    downloadBytes := 0
    uploadBytes := 0
    totalBytes := 0 }

/-- `ServiceRepo.update_peer_id` (`infrastructure/database/repo/services.py`
lines 51-67): links the service to its peer. -/
def update_peer_id (s : Service) (pid : Nat) : Service :=
  { s with peerId := some pid }

/-- The row filter of `ServiceRepo.get_inactive_services_with_peers`
(`infrastructure/database/repo/services.py` lines 437-448):
`Service.status == ServiceStatus.UNUSED` and `Service.peer_id` is not NULL. -/
def inactiveWithPeerFilter (s : Service) : Bool :=
  s.status == ServiceStatus.UNUSED && s.peerId.isSome

end BlueNet

namespace BlueNet

/-! ## Handshake classification (wireguard.py, get_peer_handshake_status) -/

/-- The handshake classification of
`WireguardManager.get_peer_handshake_status`
(`infrastructure/services/wireguard.py` lines 529-543):
empty is inactive; a digit string is active iff its integer value is
positive; otherwise a string containing `m`, `s` or `h` is active;
otherwise any value other than `"0"` / case-insensitive `"never"` is
active. -/
def isActiveHandshake (h : String) : Bool :=
  if h != "" then
    if pyIsDigit h then
      decide (0 < pyIntOfDigits h)
    else if pyContainsChar h 'm' || pyContainsChar h 's' || pyContainsChar h 'h' then
      true
    else if h != "0" && pyLower h != "never" then
      true
    else
      false
  else
    false

/-- `WireguardManager.get_peer_handshake_status` result after the peer
lookup (`wireguard.py` lines 519-545): a missing peer yields
`(false, "")`; otherwise the classification of the raw `last-handshake`
field is returned together with the raw field itself, unmodified.
`raw` is `peer.get("last-handshake", "")`, so a missing field is `""`. -/
def get_peer_handshake_status (peerFound : Bool) (raw : String) : Bool × String :=
  if !peerFound then (false, "")
  else (isActiveHandshake raw, raw)

/-- The classification that the claim's words (spec property P1) describe:
`"0"`, case-insensitive `"never"` and the empty string are inactive, and
every other non-empty string is active (the claim's positive-integer and
`h`/`m`/`s` categories are subsets of that complement). Modelled from the
spec for comparison with `isActiveHandshake`. -/
def specHandshakeActive (h : String) : Bool :=
  !(h == "" || h == "0" || pyLower h == "never")

end BlueNet

namespace BlueNet

/-! ## Usage parsing (wireguard.py, get_peer_usage_data) -/

/-- The digits-only extraction
`"".join(c for c in value if c.isdigit())` (`wireguard.py` lines 600, 607). -/
def digitsOnly (v : String) : String :=
  String.mk (v.data.filter Char.isDigit)

/-- `int(rx_value) if rx_value else 0` applied to the digits-only
extraction (`wireguard.py` lines 600-601, 607-608). -/
def parseTrafficCounter (v : String) : Nat :=
  if digitsOnly v == "" then 0 else digitsToNat (digitsOnly v).data

/-- The dictionary produced by `get_peer_usage_data`. -/
structure UsageData where
  lastHandshake : Option String
  downloadBytes : Nat
  uploadBytes : Nat
  totalBytes : Nat
deriving DecidableEq, Repr

/-- `WireguardManager.get_peer_usage_data` result construction after the
peer lookup (`infrastructure/services/wireguard.py` lines 582-619).
`lastHs`, `rx`, `tx` are the peer's optional `last-handshake`, `rx`, `tx`
fields (`none` models an absent key).  The handshake field is kept only
when present and not `"0"`/`"never"`/empty; each counter is the
digits-only parse, defaulting to 0 when the field is missing or yields no
digits; the total is the sum of the two directions. -/
def get_peer_usage_data (lastHs rx tx : Option String) : UsageData :=
  let lh := match lastHs with
    | some v => if v == "0" || v == "never" || v == "" then none else some v
    | none => none
  let down := match rx with
    | some v => parseTrafficCounter v
    | none => 0
  let up := match tx with
    | some v => parseTrafficCounter v
    | none => 0
  { lastHandshake := lh
    downloadBytes := down
    uploadBytes := up
    totalBytes := down + up }

end BlueNet

namespace BlueNet

/-! ## Claim C5: handshake classification -/

/-- C5 counterexample: the claim's categories classify every non-empty
string other than `"0"` and case-insensitive `"never"` as active, so the
all-digit string `"00"` would be active; the code classifies `"00"` as
inactive, because the digit branch tests the integer value, which is 0.
The raw value is nevertheless returned unmodified. -/
theorem c5_counterexample_digit_zero_string :
    isActiveHandshake "00" = false ∧
    specHandshakeActive "00" = true ∧
    get_peer_handshake_status true "00" = (false, "00") := by
  decide

/-- C5 (amended): classification of `get_peer_handshake_status`: the empty
string is inactive; a string of digits is active iff its integer value is
positive (so `"0"`, `"00"`, `"000"` are inactive); a non-digit string
containing `'m'`, `'s'` or `'h'` is active; every other non-empty string is
active except case-insensitive `"never"`; and the raw value is returned
unmodified alongside the classification. -/
theorem c5_handshake_classification (h : String) :
    (isActiveHandshake h = true ↔
      h ≠ "" ∧
      (if pyIsDigit h then 0 < pyIntOfDigits h
       else pyContainsChar h 'm' = true ∨ pyContainsChar h 's' = true ∨
         pyContainsChar h 'h' = true ∨ (h ≠ "0" ∧ pyLower h ≠ "never"))) ∧
    get_peer_handshake_status true h = (isActiveHandshake h, h) := by
  constructor
  · unfold isActiveHandshake
    by_cases he : h = ""
    · simp [he]
    · by_cases hd : pyIsDigit h = true
      · simp [he, hd]
      · have hd' : pyIsDigit h = false := by simpa using hd
        have h0 : h ≠ "0" := by
          intro hzero
          rw [hzero] at hd'
          exact absurd hd' (by decide)
        by_cases hm : pyContainsChar h 'm' = true
        · simp [he, hd', hm]
        · have hm' : pyContainsChar h 'm' = false := by simpa using hm
          by_cases hs : pyContainsChar h 's' = true
          · simp [he, hd', hm', hs]
          · have hs' : pyContainsChar h 's' = false := by simpa using hs
            by_cases hhc : pyContainsChar h 'h' = true
            · simp [he, hd', hm', hs', hhc]
            · have hhc' : pyContainsChar h 'h' = false := by simpa using hhc
              by_cases hl : pyLower h = "never"
              · simp [he, hd', hm', hs', hhc', h0, hl]
              · simp [he, hd', hm', hs', hhc', h0, hl]
  · simp [get_peer_handshake_status]

/-- C5 witness: the duration-like handshake value `"2m14s"` is classified
active, via the amended classification theorem. -/
theorem c5_handshake_classification_witness :
    isActiveHandshake "2m14s" = true :=
  (c5_handshake_classification "2m14s").1.mpr (by decide)

/-! ## Claim C8: usage parsing -/

/-- C8: for every peer record, the rx/tx counters are parsed by keeping
only their digit characters (`"1234KiB"` parses to 1234), a missing field
or a field with no digits yields 0, and the total is always the sum of the
two directions.  Totality of `get_peer_usage_data` models the fact that
the parse never raises. -/
theorem c8_usage_parsing (lastHs rx tx : Option String) :
    (get_peer_usage_data lastHs rx tx).totalBytes =
      (get_peer_usage_data lastHs rx tx).downloadBytes +
        (get_peer_usage_data lastHs rx tx).uploadBytes ∧
    (rx = none → (get_peer_usage_data lastHs rx tx).downloadBytes = 0) ∧
    (tx = none → (get_peer_usage_data lastHs rx tx).uploadBytes = 0) ∧
    (∀ v, rx = some v →
      (get_peer_usage_data lastHs rx tx).downloadBytes = parseTrafficCounter v ∧
      (digitsOnly v = "" → (get_peer_usage_data lastHs rx tx).downloadBytes = 0)) ∧
    (∀ v, tx = some v →
      (get_peer_usage_data lastHs rx tx).uploadBytes = parseTrafficCounter v ∧
      (digitsOnly v = "" → (get_peer_usage_data lastHs rx tx).uploadBytes = 0)) ∧
    parseTrafficCounter "1234KiB" = 1234 := by
  refine ⟨rfl, ?_, ?_, ?_, ?_, by decide⟩
  · intro hrx
    simp [get_peer_usage_data, hrx]
  · intro htx
    simp [get_peer_usage_data, htx]
  · intro v hv
    refine ⟨by simp [get_peer_usage_data, hv], ?_⟩
    intro hd
    simp [get_peer_usage_data, hv, parseTrafficCounter, hd]
  · intro v hv
    refine ⟨by simp [get_peer_usage_data, hv], ?_⟩
    intro hd
    simp [get_peer_usage_data, hv, parseTrafficCounter, hd]

/-- C8 witness: evaluating the usage parse on the router counter
`"1234KiB"` for rx and a missing tx field. -/
theorem c8_usage_parsing_witness :
    (get_peer_usage_data none (some "1234KiB") none).downloadBytes =
      parseTrafficCounter "1234KiB" ∧
    (get_peer_usage_data none (some "1234KiB") none).uploadBytes = 0 ∧
    parseTrafficCounter "1234KiB" = 1234 :=
  ⟨((c8_usage_parsing none (some "1234KiB") none).2.2.2.1 "1234KiB" rfl).1,
   (c8_usage_parsing none (some "1234KiB") none).2.2.1 rfl,
   (c8_usage_parsing none (some "1234KiB") none).2.2.2.2.2⟩

end BlueNet

namespace BlueNet

/-! ## Claim C1: purchase status vs first-use candidate set -/

/-- C1: the `Service` row created by `process_purchase` carries status
`INACTIVE`, while the first-use detection job's query
`get_inactive_services_with_peers` filters on status `UNUSED`; therefore a
purchased service, even once its peer is linked, never satisfies the
first-use candidate filter, and the status assigned at creation differs
from the status the job queries. -/
theorem c1_purchased_service_never_first_use_candidate
    (purchaseDate : Int) (pid : Nat) :
    (process_purchase_service purchaseDate).status = ServiceStatus.INACTIVE ∧
    ServiceStatus.INACTIVE ≠ ServiceStatus.UNUSED ∧
    inactiveWithPeerFilter (update_peer_id (process_purchase_service purchaseDate) pid)
      = false := by
  refine ⟨rfl, by decide, ?_⟩
  rfl

end BlueNet

namespace BlueNet

/-! ## IP allocation (wireguard.py, _find_available_ip) -/

/-- Last octet of an IPv4 address held as a 32-bit number: the component
Python reads as `str(ip).split(".")[3]`. -/
def lastOctet (ip : Nat) : Nat :=
  ip % 256

/-- Host iteration order of Python `ipaddress.ip_network(subnet).hosts()`
for an IPv4 network with network address `base` and prefix length `plen`:
for a /32 the single address, for a /31 both addresses, otherwise every
address strictly between the network and the broadcast address, in
ascending order. -/
def hostsList (base plen : Nat) : List Nat :=
  if 32 ≤ plen then [base]
  else if plen = 31 then [base, base + 1]
  else (List.range (2 ^ (32 - plen) - 2)).map (fun k => base + 1 + k)

/-- The availability test of `WireguardManager._find_available_ip`
(`infrastructure/services/wireguard.py` lines 84-88): the candidate is not
among the IPs already allocated to router peers, and its textual last
octet is not `"1"`. -/
def ipCandidateFree (used : List Nat) (ip : Nat) : Bool :=
  !used.contains ip && lastOctet ip != 1

/-- `WireguardManager._find_available_ip`
(`infrastructure/services/wireguard.py` lines 65-94): scan the hosts of
the subnet in iteration order and return the first address that is free;
`none` models the `ValueError` raised when the subnet is exhausted.
`used` is the set of `allowed-address` values of the router's existing
peers. -/
def find_available_ip (used : List Nat) (base plen : Nat) : Option Nat :=
  (hostsList base plen).find? (ipCandidateFree used)

/-- The first host of the subnet, which the claim calls the reserved
gateway address. -/
def firstHostAddr (base plen : Nat) : Option Nat :=
  (hostsList base plen).head?

end BlueNet

namespace BlueNet

/-! ## Claim C2: IP allocation -/

/-- C2 counterexample: for the subnet 10.0.0.128/25 with no allocated
peers, the first host is 10.0.0.129, whose last octet is 129, so the
code's gateway test (`last octet != "1"`) does not exclude it and
`_find_available_ip` returns exactly the subnet's first host address —
the claim says the first host is never returned.  (10.0.0.128 is
167772288 and 10.0.0.129 is 167772289 as 32-bit numbers.) -/
theorem c2_counterexample_first_host_returned :
    find_available_ip [] 167772288 25 = some 167772289 ∧
    firstHostAddr 167772288 25 = some 167772289 := by
  constructor
  · rfl
  · rfl

end BlueNet

namespace BlueNet

/-- A successful `List.find?` splits the list into a prefix of elements
failing the test, the found element, and a remainder. -/
theorem find?_first_split {α : Type} (p : α → Bool) :
    ∀ (l : List α) (a : α), l.find? p = some a →
      p a = true ∧ ∃ l₁ l₂, l = l₁ ++ a :: l₂ ∧ ∀ x ∈ l₁, p x = false := by
  intro l
  induction l with
  | nil => intro a ha; simp [List.find?] at ha
  | cons b t ih =>
    intro a ha
    rw [List.find?] at ha
    by_cases hb : p b = true
    · rw [hb] at ha
      simp only [Option.some.injEq] at ha
      subst ha
      exact ⟨hb, [], t, rfl, by simp⟩
    · have hb' : p b = false := by simpa using hb
      rw [hb'] at ha
      obtain ⟨hpa, l₁, l₂, heq, hall⟩ := ih a ha
      refine ⟨hpa, b :: l₁, l₂, by simp [heq], ?_⟩
      intro x hx
      rcases List.mem_cons.mp hx with hx | hx
      · exact hx ▸ hb'
      · exact hall x hx

/-- C2 (amended): `_find_available_ip` never returns an address already
present in the router's peer list and never returns an address whose last
octet is 1 (the code's gateway test — not the subnet's first host in
general); it returns the first host of the subnet, in host-iteration
order, that passes both tests; and when no host passes (saturated
subnet), it raises an exhaustion error (`none`) instead of returning a
value. -/
theorem c2_find_available_ip_spec (used : List Nat) (base plen : Nat) :
    (∀ ip, find_available_ip used base plen = some ip →
      ip ∉ used ∧ lastOctet ip ≠ 1 ∧
      ∃ l₁ l₂, hostsList base plen = l₁ ++ ip :: l₂ ∧
        ∀ x ∈ l₁, ipCandidateFree used x = false) ∧
    (find_available_ip used base plen = none ↔
      ∀ ip ∈ hostsList base plen, ip ∈ used ∨ lastOctet ip = 1) := by
  constructor
  · intro ip hip
    obtain ⟨hfree, l₁, l₂, heq, hall⟩ :=
      find?_first_split (ipCandidateFree used) (hostsList base plen) ip hip
    have hfree' := hfree
    unfold ipCandidateFree at hfree'
    simp only [Bool.and_eq_true, Bool.not_eq_true', bne_iff_ne, ne_eq] at hfree'
    refine ⟨?_, hfree'.2, l₁, l₂, heq, hall⟩
    intro hmem
    have hc : used.contains ip = true := by simp [hmem]
    rw [hc] at hfree'
    simp at hfree'
  · unfold find_available_ip
    rw [List.find?_eq_none]
    constructor
    · intro hnone ip hip
      have hfail := hnone ip hip
      simp only [Bool.not_eq_true] at hfail
      by_cases hu : ip ∈ used
      · exact Or.inl hu
      · right
        by_contra hne
        exact absurd hfail (by simp [ipCandidateFree, hu, hne])
    · intro hall ip hip
      rcases hall ip hip with hu | hg
      · simp [ipCandidateFree, hu]
      · unfold lastOctet at hg
        simp [ipCandidateFree, lastOctet, hg]

/-- C2 witness: in the subnet 10.0.0.0/30 (base 167772160) with host list
[.1, .2] and no allocated peers, the allocator's result 10.0.0.2
(167772162) is unused, has last octet 2, and is preceded in host order
only by the gateway .1, via the amended allocation theorem. -/
theorem c2_find_available_ip_spec_witness :
    (167772162 : Nat) ∉ ([] : List Nat) ∧ lastOctet 167772162 ≠ 1 ∧
    ∃ l₁ l₂, hostsList 167772160 30 = l₁ ++ 167772162 :: l₂ ∧
      ∀ x ∈ l₁, ipCandidateFree [] x = false :=
  (c2_find_available_ip_spec [] 167772160 30).1 167772162 (by decide)

end BlueNet

namespace BlueNet

/-! ## Retry policy (wireguard.py, _execute_api_command / _ensure_connected) -/

/-- Error classes distinguished by the retry helper: `transient` models
`RouterOsApiConnectionError` / `RouterOsApiCommunicationError`, `other`
models every other exception. -/
inductive ErrClass
  | transient
  | other
deriving DecidableEq, Repr

/-- Outcome of one invocation of the wrapped router command. -/
inductive CmdOutcome (α : Type)
  | ok (a : α)
  | err (e : ErrClass)
deriving DecidableEq, Repr

/-- Connection-related state of a `WireguardManager`: whether
`self._client_pool` is set, how many pool builds (reconnects) have been
performed, how many times `_ensure_connected` was entered, and how many
retry delays were slept. -/
structure GwState where
  poolExists : Bool
  rebuilds : Nat
  ensureCalls : Nat
  sleeps : Nat
deriving DecidableEq, Repr

/-- `WireguardManager._ensure_connected`
(`infrastructure/services/wireguard.py` lines 25-43): tears down and
rebuilds the connection pool when `force` is set or no pool exists;
otherwise it does nothing. -/
def ensure_connected (force : Bool) (s : GwState) : GwState :=
  if force || !s.poolExists then
    { s with poolExists := true
             rebuilds := s.rebuilds + 1
             ensureCalls := s.ensureCalls + 1 }
  else
    { s with ensureCalls := s.ensureCalls + 1 }

/-- One pass of the retry loop of `WireguardManager._execute_api_command`
(`infrastructure/services/wireguard.py` lines 51-63), structured over the
remaining attempt indices of `range(self._max_retries)`.  `f` gives the
wrapped command's outcome at each attempt index.  A transient error on the
last attempt re-raises; a transient error earlier sleeps the fixed delay
and calls `_ensure_connected()` (not forced) before the next attempt; any
other error propagates immediately.  Returns the result, the final
connection state, and the number of attempts performed. -/
def execLoop {α : Type} (f : Nat → CmdOutcome α) :
    List Nat → GwState → Nat → Except ErrClass α × GwState × Nat
  | [], s, used => (Except.error ErrClass.transient, s, used)
  | a :: rest, s, used =>
    match f a with
    | CmdOutcome.ok v => (Except.ok v, s, used + 1)
    | CmdOutcome.err ErrClass.transient =>
      match rest with
      | [] => (Except.error ErrClass.transient, s, used + 1)
      | _ :: _ =>
        execLoop f rest (ensure_connected false { s with sleeps := s.sleeps + 1 })
          (used + 1)
    | CmdOutcome.err ErrClass.other => (Except.error ErrClass.other, s, used + 1)

/-- `WireguardManager._execute_api_command` with `self._max_retries = 3`
(`infrastructure/services/wireguard.py` lines 22, 51-63). -/
def execute_api_command {α : Type} (f : Nat → CmdOutcome α) (s : GwState) :
    Except ErrClass α × GwState × Nat :=
  execLoop f (List.range 3) s 0

/-- A command that raises a transient error on the first two attempts and
succeeds on the third. -/
def retryScenario : Nat → CmdOutcome Nat :=
  fun n => if n < 2 then CmdOutcome.err ErrClass.transient else CmdOutcome.ok 42

/-- A manager whose connection pool is already established, as it is after
any earlier successful `_ensure_connected` call. -/
def connectedState : GwState :=
  { poolExists := true, rebuilds := 0, ensureCalls := 0, sleeps := 0 }

/-! ## Claim C3: retry policy -/

/-- C3 counterexample: with an established connection pool, a command that
fails transiently on attempts 1 and 2 and succeeds on attempt 3 does
return the success result after 3 attempts, but the retry helper performs
0 reconnects, not 2: before each retry it calls `_ensure_connected()`
without `force`, which does nothing when a pool already exists. -/
theorem c3_counterexample_no_forced_reconnect :
    (execute_api_command retryScenario connectedState).1 = Except.ok 42 ∧
    (execute_api_command retryScenario connectedState).2.2 = 3 ∧
    (execute_api_command retryScenario connectedState).2.1.ensureCalls = 2 ∧
    (execute_api_command retryScenario connectedState).2.1.rebuilds = 0 ∧
    (execute_api_command retryScenario connectedState).2.1.rebuilds ≠ 2 := by
  refine ⟨rfl, rfl, rfl, rfl, by decide⟩

/-- C3 (amended): the retry helper retries only connection/communication
errors, up to 3 attempts total, sleeping the fixed delay and calling the
non-forced `_ensure_connected` before each retry — which rebuilds the
session only when none exists, so with a live pool no reconnect is
performed.  A command failing transiently on attempts 1 and 2 and
succeeding on attempt 3 returns the success result with 3 attempts, 2
ensure-connected calls, 2 sleeps and 0 reconnects; a command failing
transiently on all 3 attempts propagates the transient error; a
non-transient error on the first attempt propagates immediately after 1
attempt with the connection state untouched. -/
theorem c3_retry_policy {α : Type} (f : Nat → CmdOutcome α) (s : GwState) (v : α) :
    (f 0 = CmdOutcome.err ErrClass.transient →
     f 1 = CmdOutcome.err ErrClass.transient →
     f 2 = CmdOutcome.ok v →
     s.poolExists = true →
      execute_api_command f s =
        (Except.ok v,
         { s with ensureCalls := s.ensureCalls + 2, sleeps := s.sleeps + 2 }, 3)) ∧
    (f 0 = CmdOutcome.err ErrClass.transient →
     f 1 = CmdOutcome.err ErrClass.transient →
     f 2 = CmdOutcome.err ErrClass.transient →
      (execute_api_command f s).1 = Except.error ErrClass.transient ∧
      (execute_api_command f s).2.2 = 3) ∧
    (f 0 = CmdOutcome.err ErrClass.other →
      execute_api_command f s = (Except.error ErrClass.other, s, 1)) := by
  refine ⟨?_, ?_, ?_⟩
  · intro h0 h1 h2 hp
    simp [execute_api_command, List.range_succ, execLoop, h0, h1, h2,
      ensure_connected, hp]
  · intro h0 h1 h2
    simp [execute_api_command, List.range_succ, execLoop, h0, h1, h2]
  · intro h0
    simp [execute_api_command, List.range_succ, execLoop, h0]

/-- C3 witness: the three branches of the amended retry theorem at
concrete commands and the established-pool state. -/
theorem c3_retry_policy_witness :
    execute_api_command retryScenario connectedState =
      (Except.ok 42,
       { connectedState with
           ensureCalls := connectedState.ensureCalls + 2,
           sleeps := connectedState.sleeps + 2 }, 3) ∧
    ((execute_api_command (fun _ => CmdOutcome.err (α := Nat) ErrClass.transient)
        connectedState).1 = Except.error ErrClass.transient ∧
     (execute_api_command (fun _ => CmdOutcome.err (α := Nat) ErrClass.transient)
        connectedState).2.2 = 3) ∧
    execute_api_command (fun _ => CmdOutcome.err (α := Nat) ErrClass.other)
        connectedState =
      (Except.error ErrClass.other, connectedState, 1) :=
  ⟨(c3_retry_policy retryScenario connectedState 42).1 rfl rfl rfl rfl,
   (c3_retry_policy (fun _ => CmdOutcome.err ErrClass.transient)
      connectedState 42).2.1 rfl rfl rfl,
   (c3_retry_policy (fun _ => CmdOutcome.err ErrClass.other)
      connectedState 42).2.2 rfl⟩

end BlueNet

namespace BlueNet

/-! ## Interface capacity selection (repo/interfaces.py, get_available_interface) -/

/-- Service type enum, from `ServiceType` in
`infrastructure/database/models/tariffs.py` (FIXED vs DYNAMIC). -/
inductive ServiceTypeKind
  | FIXED
  | DYNAMIC
deriving DecidableEq, Repr

/-- The fields of an `Interface` row that the capacity selector reads,
from `infrastructure/database/models/interfaces.py`. -/
structure Interface where
  isActive : Bool
  serviceType : ServiceTypeKind
  countryCode : Option String
  currentPeers : Nat
  maxPeers : Nat
deriving DecidableEq, Repr

/-- The WHERE clauses of `InterfaceRepo.get_available_interface`
(`infrastructure/database/repo/interfaces.py` lines 36-52): the interface
is active, its service type matches, `current_peers < max_peers`, and when
a country code is given the interface's country code equals it (a NULL
country column never matches). -/
def interfaceEligible (st : ServiceTypeKind) (cc : Option String)
    (i : Interface) : Bool :=
  i.isActive && i.serviceType == st && decide (i.currentPeers < i.maxPeers) &&
    (match cc with
     | none => true
     | some c => i.countryCode == some c)

/-- The `ORDER BY current_peers / max_peers` sort key
(`infrastructure/database/repo/interfaces.py` lines 31-33), a float cast
modelled as a rational. -/
def loadFrac (i : Interface) : ℚ :=
  (i.currentPeers : ℚ) / (i.maxPeers : ℚ)

/-- `InterfaceRepo.get_available_interface`
(`infrastructure/database/repo/interfaces.py` lines 16-75): among the
stored interfaces passing the filter, a row minimising the load ratio
(`ORDER BY load_ratio LIMIT 1`, ties resolved by store order), or `none`
when the filtered set is empty (`scalar_one_or_none`). -/
def get_available_interface (ifaces : List Interface) (st : ServiceTypeKind)
    (cc : Option String) : Option Interface :=
  (ifaces.filter (interfaceEligible st cc)).argmin loadFrac

/-! ## Claim C7: interface selection -/

/-- C7: interface selection only returns an active interface matching the
service type (and country code when given) with `current_peers` strictly
below `max_peers` — so a full interface is never returned — and among the
eligible interfaces it returns one with minimal load ratio; when no stored
interface is eligible the result is `none`, not an exception (totality of
the selector). -/
theorem c7_interface_selection (ifaces : List Interface) (st : ServiceTypeKind)
    (cc : Option String) :
    (∀ i, get_available_interface ifaces st cc = some i →
      i ∈ ifaces ∧ interfaceEligible st cc i = true ∧
      i.currentPeers < i.maxPeers ∧
      ∀ j ∈ ifaces, interfaceEligible st cc j = true → loadFrac i ≤ loadFrac j) ∧
    (ifaces.filter (interfaceEligible st cc) = [] →
      get_available_interface ifaces st cc = none) := by
  constructor
  · intro i hi
    have hmem : i ∈ (ifaces.filter (interfaceEligible st cc)).argmin loadFrac := hi
    have hifilter : i ∈ ifaces.filter (interfaceEligible st cc) :=
      List.argmin_mem hmem
    have hin : i ∈ ifaces := (List.mem_filter.mp hifilter).1
    have helig : interfaceEligible st cc i = true :=
      (List.mem_filter.mp hifilter).2
    have hlt : i.currentPeers < i.maxPeers := by
      have := helig
      unfold interfaceEligible at this
      simp only [Bool.and_eq_true, decide_eq_true_eq] at this
      exact this.1.2
    refine ⟨hin, helig, hlt, ?_⟩
    intro j hj hjelig
    have hjfilter : j ∈ ifaces.filter (interfaceEligible st cc) :=
      List.mem_filter.mpr ⟨hj, hjelig⟩
    exact List.le_of_mem_argmin hjfilter hmem
  · intro hempty
    unfold get_available_interface
    rw [hempty]
    exact List.argmin_nil loadFrac

/-- An interface at 8 of 10 peers. -/
def ifaceA : Interface :=
  { isActive := true, serviceType := ServiceTypeKind.DYNAMIC, countryCode := none,
    currentPeers := 8, maxPeers := 10 }

/-- An interface at 2 of 10 peers. -/
def ifaceB : Interface :=
  { isActive := true, serviceType := ServiceTypeKind.DYNAMIC, countryCode := none,
    currentPeers := 2, maxPeers := 10 }

/-- A full interface, 10 of 10 peers. -/
def ifaceC : Interface :=
  { isActive := true, serviceType := ServiceTypeKind.DYNAMIC, countryCode := none,
    currentPeers := 10, maxPeers := 10 }

/-- C7 witness: on the store [A(8/10), B(2/10), C(10/10)] the selection
theorem applies to the returned interface B: B is eligible, not full, and
of minimal load ratio among eligible interfaces. -/
theorem c7_interface_selection_witness :
    ifaceB ∈ [ifaceA, ifaceB, ifaceC] ∧
    interfaceEligible ServiceTypeKind.DYNAMIC none ifaceB = true ∧
    ifaceB.currentPeers < ifaceB.maxPeers ∧
    ∀ j ∈ [ifaceA, ifaceB, ifaceC],
      interfaceEligible ServiceTypeKind.DYNAMIC none j = true →
        loadFrac ifaceB ≤ loadFrac j :=
  (c7_interface_selection [ifaceA, ifaceB, ifaceC] ServiceTypeKind.DYNAMIC none).1
    ifaceB (by
      simp [get_available_interface, interfaceEligible, ifaceA, ifaceB, ifaceC,
        List.argmin, List.foldl, List.argAux, loadFrac]
      norm_num)

end BlueNet

namespace BlueNet

/-! ## Peer counters (repo/interfaces.py, increment/decrement) -/

/-- The `current_peers` columns of an interface and its owning router,
modelled as database integers. -/
structure Counters where
  interfacePeers : Int
  routerPeers : Int
deriving DecidableEq, Repr

/-- `InterfaceRepo.increment_interface_counter`
(`infrastructure/database/repo/interfaces.py` lines 77-116): adds 1 to the
interface's and its router's `current_peers`, unconditionally. -/
def increment_interface_counter (c : Counters) : Counters :=
  { interfacePeers := c.interfacePeers + 1
    routerPeers := c.routerPeers + 1 }

/-- `InterfaceRepo.decrement_interface_counter`
(`infrastructure/database/repo/interfaces.py` lines 118-157): subtracts 1
from the interface's and from the router's `current_peers`, each update
guarded by its own `current_peers > 0` WHERE clause, so a counter at 0 is
left unchanged. -/
def decrement_interface_counter (c : Counters) : Counters :=
  { interfacePeers :=
      if 0 < c.interfacePeers then c.interfacePeers - 1 else c.interfacePeers
    routerPeers :=
      if 0 < c.routerPeers then c.routerPeers - 1 else c.routerPeers }

/-- One of the two counter operations. -/
inductive CounterOp
  | inc
  | dec
deriving DecidableEq, Repr

/-- Applying a sequence of increment/decrement operations to the
counters. -/
def applyCounterOps : List CounterOp → Counters → Counters
  | [], c => c
  | CounterOp.inc :: rest, c => applyCounterOps rest (increment_interface_counter c)
  | CounterOp.dec :: rest, c => applyCounterOps rest (decrement_interface_counter c)

/-- Every sequence of counter operations preserves non-negativity of both
counters. -/
theorem applyCounterOps_nonneg (ops : List CounterOp) :
    ∀ c : Counters, 0 ≤ c.interfacePeers → 0 ≤ c.routerPeers →
      0 ≤ (applyCounterOps ops c).interfacePeers ∧
      0 ≤ (applyCounterOps ops c).routerPeers := by
  induction ops with
  | nil =>
    intro c h1 h2
    exact ⟨h1, h2⟩
  | cons op rest ih =>
    intro c h1 h2
    cases op
    · refine ih _ ?_ ?_
      · simp only [increment_interface_counter]
        omega
      · simp only [increment_interface_counter]
        omega
    · refine ih _ ?_ ?_
      · simp only [decrement_interface_counter]
        split <;> omega
      · simp only [decrement_interface_counter]
        split <;> omega

/-! ## Claim C10: counter invariant -/

/-- C10: `decrement_interface_counter` decreases a positive counter by
exactly 1 and leaves a zero counter unchanged (the update is guarded by
`current_peers > 0`), and consequently, under every sequence of increment
and decrement operations, neither the interface nor the router
`current_peers` counter ever becomes negative. -/
theorem c10_counters_never_negative (ops : List CounterOp) (c : Counters)
    (h1 : 0 ≤ c.interfacePeers) (h2 : 0 ≤ c.routerPeers) :
    (0 < c.interfacePeers →
      (decrement_interface_counter c).interfacePeers = c.interfacePeers - 1) ∧
    (c.interfacePeers = 0 →
      (decrement_interface_counter c).interfacePeers = 0) ∧
    (0 < c.routerPeers →
      (decrement_interface_counter c).routerPeers = c.routerPeers - 1) ∧
    (c.routerPeers = 0 →
      (decrement_interface_counter c).routerPeers = 0) ∧
    0 ≤ (applyCounterOps ops c).interfacePeers ∧
    0 ≤ (applyCounterOps ops c).routerPeers := by
  refine ⟨?_, ?_, ?_, ?_, ?_, ?_⟩
  · intro h
    simp [decrement_interface_counter, h]
  · intro h
    simp [decrement_interface_counter, h]
  · intro h
    simp [decrement_interface_counter, h]
  · intro h
    simp [decrement_interface_counter, h]
  · exact (applyCounterOps_nonneg ops c h1 h2).1
  · exact (applyCounterOps_nonneg ops c h1 h2).2

/-- C10 witness: starting from both counters at 0, the sequence
[dec, inc, inc, dec, dec, dec] leaves both counters non-negative, and the
decrement characterization holds at 0. -/
theorem c10_counters_never_negative_witness :
    (0 : Int) ≤ (applyCounterOps
      [CounterOp.dec, CounterOp.inc, CounterOp.inc, CounterOp.dec,
       CounterOp.dec, CounterOp.dec]
      { interfacePeers := 0, routerPeers := 0 }).interfacePeers :=
  ((c10_counters_never_negative
      [CounterOp.dec, CounterOp.inc, CounterOp.inc, CounterOp.dec,
       CounterOp.dec, CounterOp.dec]
      { interfacePeers := 0, routerPeers := 0 }
      (by decide) (by decide)).2.2.2.2).1

end BlueNet

namespace BlueNet

/-! ## Accounting jobs (scheduler.py VPNAccountingService, repo/services.py) -/

/-- The row filter of `ServiceRepo.get_active_services_with_peers`
(`infrastructure/database/repo/services.py` lines 465-476):
status ACTIVE and a non-NULL peer id. -/
def activeWithPeerFilter (s : Service) : Bool :=
  s.status == ServiceStatus.ACTIVE && s.peerId.isSome

/-- The row filter of `ServiceRepo.get_expired_services`
(`infrastructure/database/repo/services.py` lines 492-505): status ACTIVE,
`expiry_date <= now` (a NULL expiry never matches), and a non-NULL peer
id. -/
def expiredServiceFilter (now : Int) (s : Service) : Bool :=
  s.status == ServiceStatus.ACTIVE &&
    (match s.expiryDate with
     | some d => decide (d ≤ now)
     | none => false) &&
    s.peerId.isSome

/-- The row filter of `ServiceRepo.get_services_past_deletion_date`
(`infrastructure/database/repo/services.py` lines 577-591): status EXPIRED
and `deletion_date < now` (a NULL deletion date never matches). -/
def pastDeletionFilter (now : Int) (s : Service) : Bool :=
  s.status == ServiceStatus.EXPIRED &&
    (match s.deletionDate with
     | some d => decide (d < now)
     | none => false)

/-- Per-item body of `VPNAccountingService.track_first_usage`
(`infrastructure/scheduler/scheduler.py` lines 88-144) applied to one
candidate of `get_inactive_services_with_peers`: a missing peer or a
missing per-interface WireGuard manager skips the item; an inactive
handshake leaves it untouched; an active handshake sets activation,
expiry (now + tariff duration days), deletion (expiry + grace days),
status ACTIVE and the raw handshake value, and notifies the seller.
Returns the updated service and whether the seller was notified. -/
def trackFirstUsageItem (mgrAvailable : Bool) (hsActive : Bool) (raw : String)
    (now dur grace : Int) (s : Service) : Service × Bool :=
  if !s.peerId.isSome then (s, false)
  else if !mgrAvailable then (s, false)
  else if hsActive then
    ({ s with activationDate := some now
              expiryDate := some (now + dur)
              deletionDate := some (now + dur + grace)
              status := ServiceStatus.ACTIVE
              lastHandshake := some raw }, true)
  else (s, false)

/-- `track_first_usage` effect on one stored service: the per-item body
runs only on rows selected by `get_inactive_services_with_peers`. -/
def track_first_usage (mgrAvailable hsActive : Bool) (raw : String)
    (now dur grace : Int) (s : Service) : Service × Bool :=
  if inactiveWithPeerFilter s then
    trackFirstUsageItem mgrAvailable hsActive raw now dur grace s
  else (s, false)

/-- Per-item body of `VPNAccountingService.update_usage_data`
(`infrastructure/scheduler/scheduler.py` lines 173-203) applied to one
candidate of `get_active_services_with_peers`: a missing peer or manager
skips the item; an empty usage dict (`none`) leaves it untouched;
otherwise `update_service_usage` overwrites the metric fields only — the
status and dates are never written. -/
def updateUsageItem (mgrAvailable : Bool) (usage : Option UsageData)
    (s : Service) : Service :=
  if !s.peerId.isSome then s
  else if !mgrAvailable then s
  else
    match usage with
    | some u =>
      { s with lastHandshake := u.lastHandshake
               downloadBytes := u.downloadBytes
               uploadBytes := u.uploadBytes
               totalBytes := u.totalBytes }
    | none => s

/-- `update_usage_data` effect on one stored service. -/
def update_usage_data (mgrAvailable : Bool) (usage : Option UsageData)
    (s : Service) : Service :=
  if activeWithPeerFilter s then updateUsageItem mgrAvailable usage s else s

/-- Per-item body of `VPNAccountingService.disable_expired_services`
(`infrastructure/scheduler/scheduler.py` lines 234-273) applied to one
candidate of `get_expired_services`: a missing peer or manager skips the
item; when `disable_peer` reports success the service's status is set to
EXPIRED and the seller is notified; when it reports failure (peer not
found, command failed, or any exception, all of which `disable_peer`
converts to `False`) nothing is written.  Returns the updated service and
whether the seller was notified. -/
def disableExpiredItem (mgrAvailable disableOk : Bool) (s : Service) :
    Service × Bool :=
  if !s.peerId.isSome then (s, false)
  else if !mgrAvailable then (s, false)
  else if disableOk then ({ s with status := ServiceStatus.EXPIRED }, true)
  else (s, false)

/-- `disable_expired_services` effect on one stored service. -/
def disable_expired_services (mgrAvailable disableOk : Bool) (now : Int)
    (s : Service) : Service × Bool :=
  if expiredServiceFilter now s then disableExpiredItem mgrAvailable disableOk s
  else (s, false)

/-- Per-item body of `VPNAccountingService.delete_expired_services`
(`infrastructure/scheduler/scheduler.py` lines 304-341) applied to one
candidate of `get_services_past_deletion_date`: a missing peer or manager
skips the item; when `delete_peer` reports success the status is set to
DELETED and the seller is notified; on failure nothing is written. -/
def deleteExpiredItem (mgrAvailable deleteOk : Bool) (s : Service) :
    Service × Bool :=
  if !s.peerId.isSome then (s, false)
  else if !mgrAvailable then (s, false)
  else if deleteOk then ({ s with status := ServiceStatus.DELETED }, true)
  else (s, false)

/-- `delete_expired_services` effect on one stored service. -/
def delete_expired_services (mgrAvailable deleteOk : Bool) (now : Int)
    (s : Service) : Service × Bool :=
  if pastDeletionFilter now s then deleteExpiredItem mgrAvailable deleteOk s
  else (s, false)

end BlueNet

namespace BlueNet

/-! ## Claim C4: expiration job error handling -/

/-- C4: for every ACTIVE service with a bound peer whose expiry date has
passed, one run of the expiration job either succeeds at disabling the
peer on the router and then sets the status to EXPIRED and notifies the
seller, leaving all dates unchanged, or — when the disable call fails
(returns false, covering both command failure and exceptions) or the
WireGuard manager is unavailable — leaves the stored service completely
unchanged (still ACTIVE) and sends no notification, so the next run
retries it. -/
theorem c4_expiration_job (mgrAvailable disableOk : Bool) (now d : Int)
    (s : Service) (hA : s.status = ServiceStatus.ACTIVE)
    (hP : s.peerId.isSome = true) (hE : s.expiryDate = some d) (hle : d ≤ now) :
    (mgrAvailable = true → disableOk = true →
      disable_expired_services mgrAvailable disableOk now s =
        ({ s with status := ServiceStatus.EXPIRED }, true) ∧
      (disable_expired_services mgrAvailable disableOk now s).1.expiryDate
        = s.expiryDate ∧
      (disable_expired_services mgrAvailable disableOk now s).1.deletionDate
        = s.deletionDate ∧
      (disable_expired_services mgrAvailable disableOk now s).1.activationDate
        = s.activationDate) ∧
    (disableOk = false →
      disable_expired_services mgrAvailable disableOk now s = (s, false)) ∧
    (mgrAvailable = false →
      disable_expired_services mgrAvailable disableOk now s = (s, false)) := by
  have hfilter : expiredServiceFilter now s = true := by
    simp [expiredServiceFilter, hA, hP, hE, hle]
  refine ⟨?_, ?_, ?_⟩
  · intro hm hd
    subst hm hd
    simp [disable_expired_services, hfilter, disableExpiredItem, hP]
  · intro hd
    subst hd
    simp [disable_expired_services, hfilter, disableExpiredItem, hP]
  · intro hm
    subst hm
    simp [disable_expired_services, hfilter, disableExpiredItem, hP]

/-- An ACTIVE service with a bound peer that expired at time 10. -/
def expiredActiveService : Service :=
  { status := ServiceStatus.ACTIVE
    peerId := some 1
    purchaseDate := some 0
    activationDate := some 1
    expiryDate := some 10
    deletionDate := some 17
    lastHandshake := some "1m"
    downloadBytes := 5
    uploadBytes := 6
    totalBytes := 11 }

/-- C4 witness: at time 20 the expiration job on the concrete expired
ACTIVE service marks it EXPIRED with a notification when the disable
succeeds, and leaves it untouched when the disable fails. -/
theorem c4_expiration_job_witness :
    disable_expired_services true true 20 expiredActiveService =
      ({ expiredActiveService with status := ServiceStatus.EXPIRED }, true) ∧
    disable_expired_services true false 20 expiredActiveService =
      (expiredActiveService, false) :=
  ⟨((c4_expiration_job true true 20 10 expiredActiveService rfl rfl rfl
      (by decide)).1 rfl rfl).1,
   (c4_expiration_job true false 20 10 expiredActiveService rfl rfl rfl
      (by decide)).2.1 rfl⟩

end BlueNet

namespace BlueNet

/-! ## Claim C6: lifecycle monotonicity -/

/-- The four jobs of the accounting loop
(`infrastructure/scheduler/scheduler.py`). -/
inductive AccountingJob
  | firstUse
  | usageRefresh
  | expiration
  | deletion
deriving DecidableEq, Repr

/-- The effect of one accounting-loop job on one stored service.  The
booleans and `usage` model the router-side oracle results (manager
availability, handshake activity, disable/delete success, usage read). -/
def runAccountingJob (j : AccountingJob) (mgrAvailable hsActive routerOk : Bool)
    (raw : String) (usage : Option UsageData) (now dur grace : Int)
    (s : Service) : Service :=
  match j with
  | AccountingJob.firstUse =>
    (track_first_usage mgrAvailable hsActive raw now dur grace s).1
  | AccountingJob.usageRefresh => update_usage_data mgrAvailable usage s
  | AccountingJob.expiration =>
    (disable_expired_services mgrAvailable routerOk now s).1
  | AccountingJob.deletion =>
    (delete_expired_services mgrAvailable routerOk now s).1

/-- Position of a status in the lifecycle order
UNUSED → ACTIVE → EXPIRED → DELETED (INACTIVE is the separate disabled
state, never selected by any accounting job, placed at the start). -/
def statusRank : ServiceStatus → Nat
  | ServiceStatus.UNUSED => 0
  | ServiceStatus.INACTIVE => 0
  | ServiceStatus.ACTIVE => 1
  | ServiceStatus.EXPIRED => 2
  | ServiceStatus.DELETED => 3

/-- Each accounting job either leaves the status unchanged or advances it
along exactly one forward edge of the lifecycle. -/
theorem runAccountingJob_status_cases (j : AccountingJob)
    (mgrAvailable hsActive routerOk : Bool) (raw : String)
    (usage : Option UsageData) (now dur grace : Int) (s : Service) :
    (runAccountingJob j mgrAvailable hsActive routerOk raw usage now dur grace
        s).status = s.status ∨
    (s.status = ServiceStatus.UNUSED ∧
      (runAccountingJob j mgrAvailable hsActive routerOk raw usage now dur grace
        s).status = ServiceStatus.ACTIVE) ∨
    (s.status = ServiceStatus.ACTIVE ∧
      (runAccountingJob j mgrAvailable hsActive routerOk raw usage now dur grace
        s).status = ServiceStatus.EXPIRED) ∨
    (s.status = ServiceStatus.EXPIRED ∧
      (runAccountingJob j mgrAvailable hsActive routerOk raw usage now dur grace
        s).status = ServiceStatus.DELETED) := by
  cases j <;>
    simp only [runAccountingJob, track_first_usage, trackFirstUsageItem,
      update_usage_data, updateUsageItem, disable_expired_services,
      disableExpiredItem, delete_expired_services, deleteExpiredItem,
      inactiveWithPeerFilter, activeWithPeerFilter, expiredServiceFilter,
      pastDeletionFilter] <;>
    split_ifs <;> (cases usage <;> simp_all)

/-- A DELETED service is untouched by every accounting job: no job's
candidate filter selects status DELETED. -/
theorem runAccountingJob_deleted_terminal (j : AccountingJob)
    (mgrAvailable hsActive routerOk : Bool) (raw : String)
    (usage : Option UsageData) (now dur grace : Int) (s : Service)
    (hD : s.status = ServiceStatus.DELETED) :
    runAccountingJob j mgrAvailable hsActive routerOk raw usage now dur grace s
      = s := by
  cases j <;>
    simp [runAccountingJob, track_first_usage, update_usage_data,
      disable_expired_services, delete_expired_services,
      inactiveWithPeerFilter, activeWithPeerFilter, expiredServiceFilter,
      pastDeletionFilter, hD]

/-- C6: under the four accounting jobs, status transitions are monotonic
in the lifecycle order UNUSED → ACTIVE → EXPIRED → DELETED: the rank never
decreases, a service in EXPIRED can only stay EXPIRED or become DELETED,
a DELETED service is never changed at all (DELETED is terminal), and no
job moves a service from EXPIRED or DELETED back to ACTIVE or UNUSED —
because each status-mutating job selects only services in the immediately
preceding status. -/
theorem c6_lifecycle_monotonic (j : AccountingJob)
    (mgrAvailable hsActive routerOk : Bool) (raw : String)
    (usage : Option UsageData) (now dur grace : Int) (s : Service) :
    statusRank s.status ≤
      statusRank (runAccountingJob j mgrAvailable hsActive routerOk raw usage
        now dur grace s).status ∧
    (s.status = ServiceStatus.EXPIRED →
      (runAccountingJob j mgrAvailable hsActive routerOk raw usage now dur grace
        s).status = ServiceStatus.EXPIRED ∨
      (runAccountingJob j mgrAvailable hsActive routerOk raw usage now dur grace
        s).status = ServiceStatus.DELETED) ∧
    (s.status = ServiceStatus.DELETED →
      runAccountingJob j mgrAvailable hsActive routerOk raw usage now dur grace s
        = s) ∧
    ((s.status = ServiceStatus.EXPIRED ∨ s.status = ServiceStatus.DELETED) →
      (runAccountingJob j mgrAvailable hsActive routerOk raw usage now dur grace
        s).status ≠ ServiceStatus.ACTIVE ∧
      (runAccountingJob j mgrAvailable hsActive routerOk raw usage now dur grace
        s).status ≠ ServiceStatus.UNUSED) := by
  have hcases := runAccountingJob_status_cases j mgrAvailable hsActive routerOk
    raw usage now dur grace s
  refine ⟨?_, ?_, ?_, ?_⟩
  · rcases hcases with h | ⟨h1, h2⟩ | ⟨h1, h2⟩ | ⟨h1, h2⟩
    · rw [h]
    · rw [h1, h2]
      decide
    · rw [h1, h2]
      decide
    · rw [h1, h2]
      decide
  · intro hE
    rcases hcases with h | ⟨h1, h2⟩ | ⟨h1, h2⟩ | ⟨h1, h2⟩
    · exact Or.inl (h.trans hE)
    · rw [hE] at h1; exact absurd h1 (by decide)
    · rw [hE] at h1; exact absurd h1 (by decide)
    · exact Or.inr h2
  · intro hD
    exact runAccountingJob_deleted_terminal j mgrAvailable hsActive routerOk
      raw usage now dur grace s hD
  · intro hor
    rcases hcases with h | ⟨h1, h2⟩ | ⟨h1, h2⟩ | ⟨h1, h2⟩
    · rcases hor with hE | hD
      · rw [h, hE]; exact ⟨by decide, by decide⟩
      · rw [h, hD]; exact ⟨by decide, by decide⟩
    · rcases hor with hE | hD
      · rw [hE] at h1; exact absurd h1 (by decide)
      · rw [hD] at h1; exact absurd h1 (by decide)
    · rcases hor with hE | hD
      · rw [hE] at h1; exact absurd h1 (by decide)
      · rw [hD] at h1; exact absurd h1 (by decide)
    · rw [h2]; exact ⟨by decide, by decide⟩

/-- An EXPIRED service with a bound peer whose deletion date has passed
at time 20. -/
def expiredPastDeletionService : Service :=
  { expiredActiveService with
      status := ServiceStatus.EXPIRED }

/-- C6 witness: the deletion job on a concrete EXPIRED service keeps its
rank, can only move it to EXPIRED or DELETED, and never yields ACTIVE or
UNUSED; and running any job on a DELETED service leaves it unchanged. -/
theorem c6_lifecycle_monotonic_witness :
    ((runAccountingJob AccountingJob.deletion true false true "" none 20 30 7
        expiredPastDeletionService).status = ServiceStatus.EXPIRED ∨
     (runAccountingJob AccountingJob.deletion true false true "" none 20 30 7
        expiredPastDeletionService).status = ServiceStatus.DELETED) ∧
    runAccountingJob AccountingJob.expiration true false true "" none 20 30 7
        { expiredPastDeletionService with status := ServiceStatus.DELETED }
      = { expiredPastDeletionService with status := ServiceStatus.DELETED } :=
  ⟨(c6_lifecycle_monotonic AccountingJob.deletion true false true "" none 20 30 7
      expiredPastDeletionService).2.1 rfl,
   (c6_lifecycle_monotonic AccountingJob.expiration true false true "" none 20 30 7
      { expiredPastDeletionService with status := ServiceStatus.DELETED }).2.2.1
      rfl⟩

end BlueNet

namespace BlueNet

/-! ## Session lifecycle of the gateway operations (wireguard.py) -/

/-- State of `self._client_pool`: absent (`None`), present with a live
session, or present after `disconnect()` was called on it. -/
inductive PoolState
  | noPool
  | connected
  | disconnected
deriving DecidableEq, Repr

/-- The pool effect of `_ensure_connected` (`wireguard.py` lines 25-43):
when forced or when no pool exists, a fresh connected pool replaces the
old one; otherwise the pool is left as it is. -/
def ensureConnectedPool (force : Bool) (p : PoolState) : PoolState :=
  if force || p == PoolState.noPool then PoolState.connected else p

/-- The `finally` block `if self._client_pool: self._client_pool.disconnect()`
(`wireguard.py` lines 356-358, 398-400, 467-469): the pool object is kept
but its session is closed. -/
def finallyDisconnect (p : PoolState) : PoolState :=
  if p == PoolState.noPool then PoolState.noPool else PoolState.disconnected

/-- The `finally` block that also clears the pool
(`self._client_pool = None`, `wireguard.py` lines 494-498, 550-553,
624-627, 665-668). -/
def finallyDisconnectClear (_p : PoolState) : PoolState :=
  PoolState.noPool

/-- Whether a router session is open. -/
def sessionOpen (p : PoolState) : Bool :=
  p == PoolState.connected

/-- Pool effect of `WireguardManager.test_connection` (`wireguard.py`
lines 471-498): connect, run the body (whose outcome is irrelevant to the
pool), then in `finally` disconnect and clear the pool. -/
def test_connection_pool (p : PoolState) : PoolState :=
  finallyDisconnectClear (ensureConnectedPool false p)

/-- Pool effect of `get_peer_handshake_status` (`wireguard.py` lines
500-553): `finally` disconnects and clears. -/
def get_peer_handshake_status_pool (p : PoolState) : PoolState :=
  finallyDisconnectClear (ensureConnectedPool false p)

/-- Pool effect of `get_peer_usage_data` (`wireguard.py` lines 555-627):
`finally` disconnects and clears. -/
def get_peer_usage_data_pool (p : PoolState) : PoolState :=
  finallyDisconnectClear (ensureConnectedPool false p)

/-- Pool effect of `delete_peer` (`wireguard.py` lines 629-668):
`finally` disconnects and clears. -/
def delete_peer_pool (p : PoolState) : PoolState :=
  finallyDisconnectClear (ensureConnectedPool false p)

/-- Pool effect of `disable_peer` (`wireguard.py` lines 318-358):
`finally` disconnects (without clearing). -/
def disable_peer_pool (p : PoolState) : PoolState :=
  finallyDisconnect (ensureConnectedPool false p)

/-- Pool effect of `enable_peer` (`wireguard.py` lines 360-400):
`finally` disconnects (without clearing). -/
def enable_peer_pool (p : PoolState) : PoolState :=
  finallyDisconnect (ensureConnectedPool false p)

/-- Pool effect of `reset_peer` (`wireguard.py` lines 402-469):
`finally` disconnects (without clearing). -/
def reset_peer_pool (p : PoolState) : PoolState :=
  finallyDisconnect (ensureConnectedPool false p)

/-- Pool effect of `create_peer` (`wireguard.py` lines 259-316): the
method connects, runs the body, and — on the success path as well as on
the exception path of its try/except, which only logs and re-raises — has
NO `finally` block, so it never disconnects the pool. -/
def create_peer_pool (p : PoolState) : PoolState :=
  ensureConnectedPool false p

end BlueNet

namespace BlueNet

/-! ## Claim C9: session teardown -/

/-- C9 counterexample: starting with no pool, `create_peer` establishes a
session and returns — on both its success and its error path, since it has
no `finally` block — with the session still open, while the claim says
every listed operation (create_peer included) tears the session down
before returning. -/
theorem c9_counterexample_create_peer_leaves_session_open :
    sessionOpen (create_peer_pool PoolState.noPool) = true ∧
    create_peer_pool PoolState.connected = PoolState.connected := by
  exact ⟨rfl, rfl⟩

/-- C9 (amended): of the listed Gateway Client operations, all except
`create_peer` — i.e. `test_connection`, `get_peer_handshake_status`,
`get_peer_usage_data`, `disable_peer`,
`enable_peer`, `reset_peer` and `delete_peer` — tear the session down in a
`finally` block before returning, on the success and the error path
alike, so they never leave the session open; `create_peer` has no
`finally` and returns with the session it established still open. -/
theorem c9_session_teardown (p : PoolState) :
    sessionOpen (test_connection_pool p) = false ∧
    sessionOpen (get_peer_handshake_status_pool p) = false ∧
    sessionOpen (get_peer_usage_data_pool p) = false ∧
    sessionOpen (delete_peer_pool p) = false ∧
    sessionOpen (disable_peer_pool p) = false ∧
    sessionOpen (enable_peer_pool p) = false ∧
    sessionOpen (reset_peer_pool p) = false ∧
    (p ≠ PoolState.disconnected → sessionOpen (create_peer_pool p) = true) := by
  cases p <;>
    simp [sessionOpen, test_connection_pool, get_peer_handshake_status_pool,
      get_peer_usage_data_pool, delete_peer_pool, disable_peer_pool,
      enable_peer_pool, reset_peer_pool, create_peer_pool,
      finallyDisconnect, finallyDisconnectClear, ensureConnectedPool]

/-- C9 witness: from the no-pool initial state, the teardown facts of the
session theorem, including that `create_peer` returns with an open
session. -/
theorem c9_session_teardown_witness :
    sessionOpen (test_connection_pool PoolState.noPool) = false ∧
    sessionOpen (create_peer_pool PoolState.noPool) = true :=
  ⟨(c9_session_teardown PoolState.noPool).1,
   (c9_session_teardown PoolState.noPool).2.2.2.2.2.2.2 (by decide)⟩

end BlueNet
